import Mathlib

/-!
Shallow embedding of the Think_41_interview customer/order HTTP API
(src/apis.py, src/config.py, src/database.py, src/__init__.py) and proofs
about its request/response contract.

Conventions of the embedding:
* Database rows are Lean structures; the two tables are lists of rows.
* SQL statements executed by the handlers are embedded twice: their text
  (the exact strings the Python code concatenates, with the whitespace of
  the triple-quoted literals normalised to single spaces) together with
  their bound-parameter lists, and their semantics as list operations
  (filter for WHERE, insertion sort for ORDER BY, drop/take for
  OFFSET/LIMIT, counting/summing/min/max for the aggregates).
* Python values that may be NULL/None are `Option`; a Python datetime or
  other "timestamp-ish" value as held in a row is the inductive `PyVal`,
  which records the strings the three Python renderings of the value
  produce (`isoformat()`, `str()`, and the JSON layer's default datetime
  rendering).
* The Flask/werkzeug behaviours the handlers are written against are
  embedded where a claim depends on them: `request.args.get(key, default,
  type=int)` returns the default both when the key is absent and when the
  value does not parse (werkzeug catches the ValueError), and the
  `<int:...>` URL converter matches exactly the segments consisting of
  digits (regex `\d+`), so any other segment falls through to the 404
  handler of `src/__init__.py`.
* Handlers are modelled on the success path of obtaining a database
  connection; connectivity itself is modelled only where a claim is about
  it (the health endpoint).
-/

namespace ThinkAPI

/-! ### Python timestamp-like values

A value held in a timestamp column as the MySQL driver hands it to the
handler: `vnone` is SQL NULL / Python `None`; `vdatetime iso strF httpF`
is a datetime object whose `isoformat()` is `iso`, whose `str()` is
`strF`, and which Flask's default JSON provider renders as `httpF` (an
RFC-1123 http date, not the ISO form); `vother s` is a present value of a
non-temporal type (no `isoformat` attribute) whose `str()` is `s`.
Python truthiness: `None` is falsy, a datetime is always truthy, and a
non-temporal value is modelled with string truthiness (`""` falsy). -/
inductive PyVal where
  | vnone : PyVal
  | vdatetime (iso strF httpF : String) : PyVal
  | vother (s : String) : PyVal
deriving DecidableEq, Repr

/-- Python truthiness of a `PyVal` (the `if x` tests in the handlers). -/
def PyVal.truthy : PyVal → Bool
  | .vnone => false
  | .vdatetime _ _ _ => true
  | .vother s => s ≠ ""

/-- `hasattr(x, 'isoformat')`: only datetime values carry `isoformat`. -/
def PyVal.hasIsoformat : PyVal → Bool
  | .vdatetime _ _ _ => true
  | _ => false

/-- `x.isoformat()`; only ever called under a `hasIsoformat` guard. -/
def PyVal.isoformat : PyVal → String
  | .vdatetime iso _ _ => iso
  | _ => ""

/-- Python `str(x)`. -/
def PyVal.pyStr : PyVal → String
  | .vnone => "None"
  | .vdatetime _ strF _ => strF
  | .vother s => s

/-- The timestamp-rendering expression the handlers repeat inline:
`x.isoformat() if x and hasattr(x, 'isoformat') else str(x) if x else None`. -/
def formatTimestamp (v : PyVal) : Option String :=
  if v.truthy && v.hasIsoformat then some v.isoformat
  else if v.truthy then some v.pyStr
  else none

/-- Flask's default JSON provider applied to a raw row value: datetimes are
rendered as http dates (RFC 1123), `None` as null, other values by their
string form. This is what `jsonify` does to the unformatted rows that
`list_customers` returns directly from `cursor.fetchall()`. -/
def defaultJsonRender : PyVal → Option String
  | .vnone => none
  | .vdatetime _ _ httpF => some httpF
  | .vother s => some s

/-! Each handler repeats the three-way rendering expression inline, once per
timestamp field; the copies are embedded separately, one definition per
occurrence in src/apis.py. -/

/-- `registered_at` in `get_customer_details` (apis.py line 222). -/
def renderRegisteredAt (v : PyVal) : Option String :=
  if v.truthy && v.hasIsoformat then some v.isoformat
  else if v.truthy then some v.pyStr
  else none

/-- `first_order_date` in `get_customer_details` (apis.py line 233). -/
def renderFirstOrderDate (v : PyVal) : Option String :=
  if v.truthy && v.hasIsoformat then some v.isoformat
  else if v.truthy then some v.pyStr
  else none

/-- `last_order_date` in `get_customer_details` (apis.py line 234). -/
def renderLastOrderDate (v : PyVal) : Option String :=
  if v.truthy && v.hasIsoformat then some v.isoformat
  else if v.truthy then some v.pyStr
  else none

/-- `created_at` in `get_customer_orders` (apis.py line 351). -/
def renderOrdersCreatedAt (v : PyVal) : Option String :=
  if v.truthy && v.hasIsoformat then some v.isoformat
  else if v.truthy then some v.pyStr
  else none

/-- `returned_at` in `get_customer_orders` (apis.py line 352). -/
def renderOrdersReturnedAt (v : PyVal) : Option String :=
  if v.truthy && v.hasIsoformat then some v.isoformat
  else if v.truthy then some v.pyStr
  else none

/-- `shipped_at` in `get_customer_orders` (apis.py line 353). -/
def renderOrdersShippedAt (v : PyVal) : Option String :=
  if v.truthy && v.hasIsoformat then some v.isoformat
  else if v.truthy then some v.pyStr
  else none

/-- `delivered_at` in `get_customer_orders` (apis.py line 354). -/
def renderOrdersDeliveredAt (v : PyVal) : Option String :=
  if v.truthy && v.hasIsoformat then some v.isoformat
  else if v.truthy then some v.pyStr
  else none

/-- `created_at` in `get_order_details` (apis.py line 451). -/
def renderOrderDetailCreatedAt (v : PyVal) : Option String :=
  if v.truthy && v.hasIsoformat then some v.isoformat
  else if v.truthy then some v.pyStr
  else none

/-- `returned_at` in `get_order_details` (apis.py line 452). -/
def renderOrderDetailReturnedAt (v : PyVal) : Option String :=
  if v.truthy && v.hasIsoformat then some v.isoformat
  else if v.truthy then some v.pyStr
  else none

/-- `shipped_at` in `get_order_details` (apis.py line 453). -/
def renderOrderDetailShippedAt (v : PyVal) : Option String :=
  if v.truthy && v.hasIsoformat then some v.isoformat
  else if v.truthy then some v.pyStr
  else none

/-- `delivered_at` in `get_order_details` (apis.py line 454). -/
def renderOrderDetailDeliveredAt (v : PyVal) : Option String :=
  if v.truthy && v.hasIsoformat then some v.isoformat
  else if v.truthy then some v.pyStr
  else none

/-! ### Data model (src tables `users` and `orders`)

Column types follow the spec's data model: nullable columns are `Option`,
the non-null created-at of an order is a plain timestamp. For aggregation
(MIN/MAX of `created_at`), order timestamps are modelled by their totally
ordered key `Nat`; the registration timestamp of a user, which the
handlers only render, is a `PyVal`. -/

structure User where
  id : Nat
  firstName : Option String
  lastName : Option String
  email : String
  age : Option Nat
  gender : Option String
  state : Option String
  address : Option String
  postalCode : Option String
  city : Option String
  country : Option String
  searchTerm : Option String
  timestamp : PyVal
deriving DecidableEq, Repr

structure Order where
  orderId : Nat
  userId : Nat
  status : String
  gender : Option String
  createdAt : Nat
  returnedAt : Option Nat
  shippedAt : Option Nat
  deliveredAt : Option Nat
  numOfItem : Nat
deriving DecidableEq, Repr

/-- The relational store: the `users` and `orders` tables. -/
structure DB where
  users : List User
  orders : List Order
deriving DecidableEq, Repr

/-! ### Configuration (src/config.py) -/

/-- `Config.DEFAULT_PAGE_SIZE` (config.py line 34). -/
def DEFAULT_PAGE_SIZE : Int := 10

/-- `Config.MAX_PAGE_SIZE` (config.py line 35). -/
def MAX_PAGE_SIZE : Int := 100

/-! ### Query-string parsing (Flask's `request.args.get(key, default, type=int)`)

werkzeug's `MultiDict.get` applies the `type` callable to the raw value and
returns the default when the callable raises; `int(...)` accepts an
optionally signed run of digits with surrounding whitespace. -/

/-- Strip leading and trailing whitespace from a character list (Python
`str.strip()` / the `.trim()`-style normalisation, written structurally). -/
def trimChars (cs : List Char) : List Char :=
  ((cs.dropWhile Char.isWhitespace).reverse.dropWhile Char.isWhitespace).reverse

/-- Python `str.strip()`. -/
def pyStrip (s : String) : String :=
  String.mk (trimChars s.data)

/-- Python `str.lower()` (ASCII case folding suffices for the claims). -/
def pyLower (s : String) : String :=
  String.mk (s.data.map Char.toLower)

/-- The value of a non-empty all-digit character run. -/
def digitsVal (cs : List Char) : Option Nat :=
  if cs ≠ [] && cs.all Char.isDigit then
    some (cs.foldl (fun acc c => acc * 10 + (c.toNat - 48)) 0)
  else none

/-- Python `int(s)` on a string: strip whitespace, optional sign, then a
non-empty run of digits; `none` models the `ValueError` on anything else. -/
def pyParseInt (s : String) : Option Int :=
  match trimChars s.data with
  | [] => none
  | c :: cs =>
    if c = '-' then (digitsVal cs).map (fun n => -(n : Int))
    else if c = '+' then (digitsVal cs).map (fun n => (n : Int))
    else (digitsVal (c :: cs)).map (fun n => (n : Int))

/-- `request.args.get(key, default, type=int)`: the default when the key is
absent, and also when the raw value fails to convert (werkzeug swallows the
`ValueError` raised by `int`). -/
def getIntArg (raw : Option String) (dflt : Int) : Int :=
  match raw with
  | none => dflt
  | some s => (pyParseInt s).getD dflt

/-- `request.args.get(key, '', type=str).strip()`. -/
def getStrArg (raw : Option String) : String :=
  pyStrip (raw.getD "")

/-! ### URL routing (werkzeug `<int:...>` converter)

Flask's integer URL converter uses the regex `\d+`: it matches exactly the
non-empty all-digit segments. A segment it does not match means no route
matches the path, so the request falls to the 404 handler registered in
src/__init__.py (`not_found`). In particular a segment with a leading minus
sign, such as `-1`, does not match and never reaches the handler. -/

/-- Does a path segment match the `<int:...>` converter (regex `\d+`)? -/
def isIntSegment (s : String) : Bool :=
  s.data ≠ [] && s.data.all Char.isDigit

/-- The integer the converter hands to the handler for a matched segment. -/
def digitsToNat (s : String) : Nat :=
  s.data.foldl (fun acc c => acc * 10 + (c.toNat - 48)) 0

/-! ### SQL statement texts and bound parameters

The statement strings exactly as the handlers build them (whitespace of the
Python triple-quoted literals normalised to single spaces), and the bound
parameters passed alongside. User-supplied values appear only in the
parameter lists. -/

/-- A value bound to a `%s` placeholder. -/
inductive SqlParam where
  | str (s : String) : SqlParam
  | int (n : Int) : SqlParam
deriving DecidableEq, Repr

/-- The column list of `list_customers`' base query (apis.py lines 75-79). -/
def listCustomersSelect : String :=
  "SELECT id, first_name, last_name, email, age, gender, state, city, country, timestamp FROM users"

/-- The count query head of `list_customers` (apis.py line 80). -/
def listCustomersCountSelect : String :=
  "SELECT COUNT(*) as total FROM users"

/-- The search condition appended to both queries when `search` is non-empty
(apis.py lines 84-88). -/
def searchCondition : String :=
  " WHERE first_name LIKE %s OR last_name LIKE %s OR email LIKE %s"

/-- `count_query` as executed by `list_customers` (apis.py lines 80-95). -/
def listCustomersCountQuery (search : String) : String :=
  listCustomersCountSelect ++ (if search ≠ "" then searchCondition else "")

/-- `base_query` after the optional search condition (apis.py lines 75-89). -/
def listCustomersBaseQuery (search : String) : String :=
  listCustomersSelect ++ (if search ≠ "" then searchCondition else "")

/-- The page query as executed by `list_customers` (apis.py line 99). -/
def listCustomersPageQuery (search : String) : String :=
  listCustomersBaseQuery search ++ " ORDER BY id LIMIT %s OFFSET %s"

/-- The parameters shared by the count and base queries of `list_customers`:
three copies of `%search%` when searching, none otherwise (apis.py 82-92). -/
def listCustomersParams (search : String) : List SqlParam :=
  if search ≠ "" then
    [.str ("%" ++ search ++ "%"), .str ("%" ++ search ++ "%"), .str ("%" ++ search ++ "%")]
  else []

/-- The parameters of the page query: the shared ones plus limit and offset
(apis.py line 100). -/
def listCustomersPageParams (search : String) (limit offset : Int) : List SqlParam :=
  listCustomersParams search ++ [.int limit, .int offset]

/-- The column list of `get_customer_orders`' base query, including its fixed
`WHERE user_id = %s` (apis.py lines 316-321). -/
def customerOrdersSelect : String :=
  "SELECT order_id, user_id, status, gender, created_at, returned_at, shipped_at, delivered_at, num_of_item FROM orders WHERE user_id = %s"

/-- The count query head of `get_customer_orders` (apis.py line 322). -/
def customerOrdersCountSelect : String :=
  "SELECT COUNT(*) as total FROM orders WHERE user_id = %s"

/-- The status condition appended to both queries when the filter is
non-empty (apis.py lines 326-327). -/
def statusCondition : String :=
  " AND LOWER(status) = %s"

/-- `count_query` as executed by `get_customer_orders` (apis.py 322-331). -/
def customerOrdersCountQuery (statusFilter : String) : String :=
  customerOrdersCountSelect ++ (if statusFilter ≠ "" then statusCondition else "")

/-- The page query as executed by `get_customer_orders` (apis.py line 338). -/
def customerOrdersPageQuery (statusFilter : String) : String :=
  customerOrdersSelect ++ (if statusFilter ≠ "" then statusCondition else "")
    ++ " ORDER BY created_at DESC LIMIT %s OFFSET %s"

/-- The parameters shared by the count and base queries of
`get_customer_orders` (apis.py lines 324-328). -/
def customerOrdersParams (customerId : Int) (statusFilter : String) : List SqlParam :=
  [.int customerId] ++ (if statusFilter ≠ "" then [.str statusFilter] else [])

/-- The parameters of the page query of `get_customer_orders` (line 339). -/
def customerOrdersPageParams (customerId : Int) (statusFilter : String)
    (limit offset : Int) : List SqlParam :=
  customerOrdersParams customerId statusFilter ++ [.int limit, .int offset]

/-- The single-order query of `get_order_details` (apis.py lines 424-431);
its text is a constant, the id is bound (line 432). -/
def orderDetailQuery : String :=
  "SELECT o.order_id, o.user_id, o.status, o.gender, o.created_at, o.returned_at, o.shipped_at, o.delivered_at, o.num_of_item, u.first_name, u.last_name, u.email, u.age, u.city, u.state, u.country FROM orders o LEFT JOIN users u ON o.user_id = u.id WHERE o.order_id = %s"

/-- The parameters of `get_order_details`' query. -/
def orderDetailParams (orderId : Int) : List SqlParam :=
  [.int orderId]

/-! ### SQL semantics as list operations -/

/-- `field LIKE '%term%'`: substring containment; a NULL field matches
nothing. (LIKE wildcard characters inside the term are outside this
model; the claims do not depend on them.) -/
def likeContains (field : Option String) (term : String) : Bool :=
  match field with
  | none => false
  | some s => decide (term.data <:+: s.data)

/-- The search predicate of `list_customers`:
`first_name LIKE %s OR last_name LIKE %s OR email LIKE %s`. -/
def customerPred (search : String) (u : User) : Bool :=
  likeContains u.firstName search || likeContains u.lastName search ||
    likeContains (some u.email) search

/-- The rows the count and page queries of `list_customers` range over:
all of `users` without a search, the predicate's rows with one. -/
def customersMatching (search : String) (us : List User) : List User :=
  if search = "" then us else us.filter (customerPred search)

/-- The rows the count and page queries of `get_customer_orders` range
over: `WHERE user_id = %s`, with `AND LOWER(status) = %s` when a status
filter is present. -/
def ordersMatching (customerId : Int) (statusFilter : String)
    (os : List Order) : List Order :=
  if statusFilter = "" then
    os.filter (fun o => (o.userId : Int) == customerId)
  else
    os.filter (fun o =>
      (o.userId : Int) == customerId && pyLower o.status == statusFilter)

/-- Insertion step of the ORDER BY model. -/
def insertLe {α : Type} (le : α → α → Bool) (x : α) : List α → List α
  | [] => [x]
  | y :: ys => if le x y then x :: y :: ys else y :: insertLe le x ys

/-- `ORDER BY` as a stable insertion sort with comparator `le`. -/
def sortByLe {α : Type} (le : α → α → Bool) : List α → List α
  | [] => []
  | x :: xs => insertLe le x (sortByLe le xs)

/-- `ORDER BY id` in `list_customers`. -/
def sortUsersById : List User → List User :=
  sortByLe (fun a b => decide (a.id ≤ b.id))

/-- `ORDER BY created_at DESC` in `get_customer_orders`. -/
def sortOrdersByCreatedDesc : List Order → List Order :=
  sortByLe (fun a b => decide (b.createdAt ≤ a.createdAt))

/-- SQL `COUNT(CASE WHEN status = '...' THEN 1 END)` over a row list. -/
def sqlCountStatus (st : String) (os : List Order) : Nat :=
  (os.filter (fun o => o.status == st)).length

/-- SQL `MIN` over a column: NULL on the empty set. -/
def sqlMinNat : List Nat → Option Nat
  | [] => none
  | n :: ns =>
    match sqlMinNat ns with
    | none => some n
    | some m => some (Nat.min n m)

/-- SQL `MAX` over a column: NULL on the empty set. -/
def sqlMaxNat : List Nat → Option Nat
  | [] => none
  | n :: ns =>
    match sqlMaxNat ns with
    | none => some n
    | some m => some (Nat.max n m)

/-! ### Python response-shaping helpers -/

/-- Python `x or 0` on a nullable count (`total_items` in apis.py 232). -/
def pyOrZero (v : Option Nat) : Nat :=
  match v with
  | none => 0
  | some n => n

/-- How an f-string interpolates a possibly-`None` value: `str(x)`. -/
def pyStrOfOpt (v : Option String) : String :=
  match v with
  | none => "None"
  | some s => s

/-- `f"{first} {last}"` (apis.py lines 206 and 365). -/
def fstringJoin (f l : Option String) : String :=
  pyStrOfOpt f ++ " " ++ pyStrOfOpt l

/-- Python truthiness of a nullable string (`if first and last`, line 461). -/
def truthyStr (v : Option String) : Bool :=
  match v with
  | none => false
  | some s => s ≠ ""

/-! ### Handlers -/

/-- The pagination block of a list response (apis.py 110-117, 368-375). -/
structure Pagination where
  page : Nat
  limit : Nat
  totalCount : Nat
  totalPages : Nat
  hasNext : Bool
  hasPrev : Bool
deriving DecidableEq, Repr

/-- Raw query-string inputs of `list_customers`. -/
structure ListArgs where
  page : Option String
  limit : Option String
  search : Option String
deriving DecidableEq, Repr

/-- Outcome of `list_customers`: an error envelope or the row page plus
pagination block plus the echoed search term. -/
inductive ListCustomersResult where
  | err (status : Nat) (error message : String) : ListCustomersResult
  | ok (customers : List User) (pagination : Pagination)
      (searchEcho : Option String) : ListCustomersResult
deriving DecidableEq, Repr

/-- `list_customers` after parameter resolution (apis.py lines 44-124):
validation, the count query, the page query (ORDER BY id LIMIT/OFFSET),
and the pagination block. -/
def listCustomersCore (db : DB) (page limit : Int) (search : String) :
    ListCustomersResult :=
  if page < 1 then
    .err 400 "Invalid page number" "Page number must be 1 or greater"
  else if limit < 1 || limit > MAX_PAGE_SIZE then
    .err 400 "Invalid limit" "Limit must be between 1 and 100"
  else
    let p := page.toNat
    let l := limit.toNat
    let offset := (p - 1) * l
    let matching := customersMatching search db.users
    let totalCount := matching.length
    let customers := ((sortUsersById matching).drop offset).take l
    let totalPages := (totalCount + l - 1) / l
    .ok customers
      ⟨p, l, totalCount, totalPages, decide (p < totalPages), decide (p > 1)⟩
      (if search ≠ "" then some search else none)

/-- `list_customers` (apis.py lines 30-124): resolve `page`, `limit` and
`search` from the query string, then run the core. -/
def listCustomers (db : DB) (a : ListArgs) : ListCustomersResult :=
  listCustomersCore db (getIntArg a.page 1) (getIntArg a.limit DEFAULT_PAGE_SIZE)
    (getStrArg a.search)

/-- The aggregate row of the order-statistics query (apis.py 184-196). -/
structure OrderStatsRow where
  totalOrders : Nat
  deliveredOrders : Nat
  returnedOrders : Nat
  shippedOrders : Nat
  pendingOrders : Nat
  totalItems : Option Nat
  firstOrderDate : Option Nat
  lastOrderDate : Option Nat
deriving DecidableEq, Repr

/-- Semantics of the order-statistics query `WHERE user_id = %s`. -/
def orderStatsFor (customerId : Int) (os : List Order) : OrderStatsRow :=
  let mine := os.filter (fun o => (o.userId : Int) == customerId)
  { totalOrders := mine.length
    deliveredOrders := sqlCountStatus "delivered" mine
    returnedOrders := sqlCountStatus "returned" mine
    shippedOrders := sqlCountStatus "shipped" mine
    pendingOrders := sqlCountStatus "pending" mine
    totalItems := if mine.isEmpty then none else some ((mine.map Order.numOfItem).sum)
    firstOrderDate := sqlMinNat (mine.map Order.createdAt)
    lastOrderDate := sqlMaxNat (mine.map Order.createdAt) }

/-- The `customer` object of the detail response (apis.py 202-223). -/
structure CustomerPayload where
  id : Nat
  firstName : Option String
  lastName : Option String
  fullName : Option String
  email : String
  age : Option Nat
  gender : Option String
  address : Option String
  city : Option String
  state : Option String
  postalCode : Option String
  country : Option String
  searchTerm : Option String
  registeredAt : Option String
deriving DecidableEq, Repr

/-- The `order_summary` object of the detail response (apis.py 224-235);
the two dates are kept as the raw aggregate values, their string
rendering being the `renderFirstOrderDate`/`renderLastOrderDate` layer. -/
structure OrderSummary where
  totalOrders : Nat
  delivered : Nat
  returned : Nat
  shipped : Nat
  pending : Nat
  totalItemsPurchased : Nat
  firstOrderDate : Option Nat
  lastOrderDate : Option Nat
deriving DecidableEq, Repr

/-- Outcome of `get_customer_details`. -/
inductive CustomerDetailResult where
  | err (status : Nat) (error message : String) : CustomerDetailResult
  | ok (customer : CustomerPayload) (summary : OrderSummary) : CustomerDetailResult
deriving DecidableEq, Repr

/-- `get_customer_details` (apis.py lines 138-239). -/
def getCustomerDetails (db : DB) (customerId : Int) : CustomerDetailResult :=
  if customerId ≤ 0 then
    .err 400 "Invalid Customer ID" "Customer ID must be a positive integer"
  else
    match db.users.find? (fun u => (u.id : Int) == customerId) with
    | none =>
      .err 404 "Customer Not Found"
        ("Customer with ID " ++ toString customerId ++ " does not exist")
    | some customer =>
      let stats := orderStatsFor customerId db.orders
      .ok
        { id := customer.id
          firstName := customer.firstName
          lastName := customer.lastName
          fullName := some (fstringJoin customer.firstName customer.lastName)
          email := customer.email
          age := customer.age
          gender := customer.gender
          address := customer.address
          city := customer.city
          state := customer.state
          postalCode := customer.postalCode
          country := customer.country
          searchTerm := customer.searchTerm
          registeredAt := renderRegisteredAt customer.timestamp }
        { totalOrders := stats.totalOrders
          delivered := stats.deliveredOrders
          returned := stats.returnedOrders
          shipped := stats.shippedOrders
          pending := stats.pendingOrders
          totalItemsPurchased := pyOrZero stats.totalItems
          firstOrderDate := stats.firstOrderDate
          lastOrderDate := stats.lastOrderDate }

/-- Routing for `GET /api/customers/<int:customer_id>`: the handler when the
segment matches `\d+`, the app's 404 envelope otherwise. -/
def routeCustomerDetail (db : DB) (seg : String) : CustomerDetailResult :=
  if isIntSegment seg then getCustomerDetails db (digitsToNat seg : Int)
  else .err 404 "Not Found" "The requested resource was not found"

/-- The customer stub of the orders-list response (apis.py 363-366). -/
structure CustomerStub where
  id : Nat
  name : String
deriving DecidableEq, Repr

/-- Raw query-string inputs of `get_customer_orders`. -/
structure OrdersArgs where
  page : Option String
  limit : Option String
  status : Option String
deriving DecidableEq, Repr

/-- Outcome of `get_customer_orders`; the order rows are carried as rows —
the per-row dict formatting (apis.py 343-355) maps each row and preserves
their number, the timestamp rendering being the `renderOrders*` layer. -/
inductive CustomerOrdersResult where
  | err (status : Nat) (error message : String) : CustomerOrdersResult
  | ok (customer : CustomerStub) (orders : List Order)
      (pagination : Pagination) (filterEcho : Option String) : CustomerOrdersResult
deriving DecidableEq, Repr

/-- `get_customer_orders` after parameter resolution (apis.py 264-382). -/
def getCustomerOrdersCore (db : DB) (customerId page limit : Int)
    (statusFilter : String) : CustomerOrdersResult :=
  if customerId ≤ 0 then
    .err 400 "Invalid Customer ID" "Customer ID must be a positive integer"
  else if page < 1 then
    .err 400 "Invalid page number" "Page number must be 1 or greater"
  else if limit < 1 || limit > MAX_PAGE_SIZE then
    .err 400 "Invalid limit" "Limit must be between 1 and 100"
  else
    match db.users.find? (fun u => (u.id : Int) == customerId) with
    | none =>
      .err 404 "Customer Not Found"
        ("Customer with ID " ++ toString customerId ++ " does not exist")
    | some customer =>
      let matching := ordersMatching customerId statusFilter db.orders
      let totalCount := matching.length
      let p := page.toNat
      let l := limit.toNat
      let offset := (p - 1) * l
      let orders := ((sortOrdersByCreatedDesc matching).drop offset).take l
      let totalPages := (totalCount + l - 1) / l
      .ok ⟨customer.id, fstringJoin customer.firstName customer.lastName⟩ orders
        ⟨p, l, totalCount, totalPages, decide (p < totalPages), decide (p > 1)⟩
        (if statusFilter ≠ "" then some statusFilter else none)

/-- `get_customer_orders` (apis.py lines 253-382): resolve `page`, `limit`
and the lower-cased `status` filter, then run the core. -/
def getCustomerOrders (db : DB) (customerId : Int) (a : OrdersArgs) :
    CustomerOrdersResult :=
  getCustomerOrdersCore db customerId (getIntArg a.page 1)
    (getIntArg a.limit DEFAULT_PAGE_SIZE) (pyLower (getStrArg a.status))

/-- The `order` object of the order-detail response (apis.py 444-456). -/
structure OrderPayload where
  orderId : Nat
  userId : Nat
  status : String
  gender : Option String
  numOfItems : Nat
  createdAt : Nat
  returnedAt : Option Nat
  shippedAt : Option Nat
  deliveredAt : Option Nat
deriving DecidableEq, Repr

/-- The `customer` object of the order-detail response (apis.py 457-469);
every field is nullable in the JSON, `id` being populated from the order's
own `user_id` and the rest from the LEFT-JOINed user row. -/
structure JoinedCustomerPayload where
  id : Option Int
  firstName : Option String
  lastName : Option String
  fullName : Option String
  email : Option String
  age : Option Nat
  city : Option String
  state : Option String
  country : Option String
deriving DecidableEq, Repr

/-- Outcome of `get_order_details`. -/
inductive OrderDetailResult where
  | err (status : Nat) (error message : String) : OrderDetailResult
  | ok (order : OrderPayload) (customer : JoinedCustomerPayload) : OrderDetailResult
deriving DecidableEq, Repr

/-- `get_order_details` (apis.py lines 396-473): find the order, LEFT JOIN
its user row, and shape the response; a missing user row leaves the joined
columns NULL, it is not a 404. -/
def getOrderDetails (db : DB) (orderId : Int) : OrderDetailResult :=
  if orderId ≤ 0 then
    .err 400 "Invalid Order ID" "Order ID must be a positive integer"
  else
    match db.orders.find? (fun o => (o.orderId : Int) == orderId) with
    | none =>
      .err 404 "Order Not Found"
        ("Order with ID " ++ toString orderId ++ " does not exist")
    | some o =>
      let joined := db.users.find? (fun u => u.id == o.userId)
      let jFirst := joined.bind User.firstName
      let jLast := joined.bind User.lastName
      .ok
        { orderId := o.orderId
          userId := o.userId
          status := o.status
          gender := o.gender
          numOfItems := o.numOfItem
          createdAt := o.createdAt
          returnedAt := o.returnedAt
          shippedAt := o.shippedAt
          deliveredAt := o.deliveredAt }
        { id := some (o.userId : Int)
          firstName := jFirst
          lastName := jLast
          fullName :=
            if truthyStr jFirst && truthyStr jLast then
              some (pyStrOfOpt jFirst ++ " " ++ pyStrOfOpt jLast)
            else none
          email := joined.map User.email
          age := joined.bind User.age
          city := joined.bind User.city
          state := joined.bind User.state
          country := joined.bind User.country }

/-- Routing for `GET /api/orders/<int:order_id>`. -/
def routeOrderDetail (db : DB) (seg : String) : OrderDetailResult :=
  if isIntSegment seg then getOrderDetails db (digitsToNat seg : Int)
  else .err 404 "Not Found" "The requested resource was not found"

/-- What `jsonify` emits for the `timestamp` column of the raw rows that
`list_customers` returns straight from `cursor.fetchall()`: the JSON
provider's default datetime rendering, no handler-side formatting. -/
def listCustomersRenderedTimestamps (r : ListCustomersResult) : List (Option String) :=
  match r with
  | .ok customers _ _ => customers.map (fun u => defaultJsonRender u.timestamp)
  | .err _ _ _ => []

/-! ### Health endpoint (apis.py 487-509, database.py 16-28) -/

/-- Outcome of `get_db_connection()` as observed by `health_check`: a live
connection, `None` (the connector raised and was caught inside
`get_db_connection`), or an exception escaping the probe itself. -/
inductive ProbeOutcome where
  | conn : ProbeOutcome
  | noConn : ProbeOutcome
  | raises (msg : String) : ProbeOutcome
deriving DecidableEq, Repr

/-- The health response: transport status and the body fields the claims
are about. -/
structure HealthResponse where
  httpStatus : Nat
  status : String
  database : Option String
  error : Option String
deriving DecidableEq, Repr

/-- `health_check` (apis.py lines 487-509). -/
def healthCheck (probe : ProbeOutcome) : HealthResponse :=
  match probe with
  | .conn => ⟨200, "healthy", some "connected", none⟩
  | .noConn => ⟨200, "healthy", some "disconnected", none⟩
  | .raises msg => ⟨500, "unhealthy", none, some msg⟩

/-- The `full_name` field of a customer-detail response, `none` on the
error envelopes. -/
def detailFullName (r : CustomerDetailResult) : Option String :=
  match r with
  | .ok cp _ => cp.fullName
  | .err _ _ _ => none

/-! ### Helper lemmas -/

theorem length_insertLe {α : Type} (le : α → α → Bool) (x : α) (l : List α) :
    (insertLe le x l).length = l.length + 1 := by
  induction l with
  | nil => rfl
  | cons y ys ih =>
    simp only [insertLe]
    by_cases h : le x y = true
    · simp [h]
    · simp [h, ih]

theorem length_sortByLe {α : Type} (le : α → α → Bool) (l : List α) :
    (sortByLe le l).length = l.length := by
  induction l with
  | nil => rfl
  | cons x xs ih => simp [sortByLe, length_insertLe, ih]

theorem mem_insertLe {α : Type} (le : α → α → Bool) (x a : α) (l : List α) :
    a ∈ insertLe le x l ↔ a = x ∨ a ∈ l := by
  induction l with
  | nil => simp [insertLe]
  | cons y ys ih =>
    simp only [insertLe]
    by_cases h : le x y = true
    · simp [h]
    · simp only [h, Bool.false_eq_true, if_false, List.mem_cons, ih]
      tauto

theorem mem_sortByLe {α : Type} (le : α → α → Bool) (a : α) (l : List α) :
    a ∈ sortByLe le l ↔ a ∈ l := by
  induction l with
  | nil => simp [sortByLe]
  | cons x xs ih => simp [sortByLe, mem_insertLe, ih]

theorem sqlMinNat_eq_none_iff (l : List Nat) : sqlMinNat l = none ↔ l = [] := by
  cases l with
  | nil => simp [sqlMinNat]
  | cons n ns =>
    simp only [sqlMinNat]
    cases sqlMinNat ns <;> simp

theorem sqlMinNat_isMin (l : List Nat) (m : Nat) (h : sqlMinNat l = some m) :
    m ∈ l ∧ ∀ x ∈ l, m ≤ x := by
  induction l generalizing m with
  | nil => simp [sqlMinNat] at h
  | cons n ns ih =>
    simp only [sqlMinNat] at h
    cases hns : sqlMinNat ns with
    | none =>
      rw [hns] at h
      have hnil : ns = [] := (sqlMinNat_eq_none_iff ns).mp hns
      subst hnil
      simp only [Option.some.injEq] at h
      subst h
      simp
    | some k =>
      rw [hns] at h
      have hk := ih k hns
      simp only [Option.some.injEq] at h
      replace h : (if n ≤ k then n else k) = m := h
      by_cases hle : n ≤ k
      · rw [if_pos hle] at h
        subst h
        refine ⟨List.mem_cons_self _ _, ?_⟩
        intro x hx
        rcases List.mem_cons.mp hx with rfl | hx
        · exact Nat.le_refl _
        · exact Nat.le_trans hle (hk.2 x hx)
      · rw [if_neg hle] at h
        subst h
        refine ⟨List.mem_cons_of_mem _ hk.1, ?_⟩
        intro x hx
        rcases List.mem_cons.mp hx with rfl | hx
        · omega
        · exact hk.2 x hx

theorem sqlMaxNat_eq_none_iff (l : List Nat) : sqlMaxNat l = none ↔ l = [] := by
  cases l with
  | nil => simp [sqlMaxNat]
  | cons n ns =>
    simp only [sqlMaxNat]
    cases sqlMaxNat ns <;> simp

theorem sqlMaxNat_isMax (l : List Nat) (m : Nat) (h : sqlMaxNat l = some m) :
    m ∈ l ∧ ∀ x ∈ l, x ≤ m := by
  induction l generalizing m with
  | nil => simp [sqlMaxNat] at h
  | cons n ns ih =>
    simp only [sqlMaxNat] at h
    cases hns : sqlMaxNat ns with
    | none =>
      rw [hns] at h
      have hnil : ns = [] := (sqlMaxNat_eq_none_iff ns).mp hns
      subst hnil
      simp only [Option.some.injEq] at h
      subst h
      simp
    | some k =>
      rw [hns] at h
      have hk := ih k hns
      simp only [Option.some.injEq] at h
      replace h : (if n ≤ k then k else n) = m := h
      by_cases hle : n ≤ k
      · rw [if_pos hle] at h
        subst h
        refine ⟨List.mem_cons_of_mem _ hk.1, ?_⟩
        intro x hx
        rcases List.mem_cons.mp hx with rfl | hx
        · exact hle
        · exact hk.2 x hx
      · rw [if_neg hle] at h
        subst h
        refine ⟨List.mem_cons_self _ _, ?_⟩
        intro x hx
        rcases List.mem_cons.mp hx with rfl | hx
        · exact Nat.le_refl _
        · exact Nat.le_trans (hk.2 x hx) (by omega)

/-- The page of rows a LIMIT/OFFSET query returns out of `n` matching rows
has exactly `min limit (n - offset)` rows. -/
theorem length_page {α : Type} (l : List α) (offset limit : Nat) :
    ((l.drop offset).take limit).length = Nat.min limit (l.length - offset) := by
  simp [List.length_take, List.length_drop]

/-- `ORDER BY id` reorders the customer rows without changing their
number. -/
theorem length_sortUsersById (l : List User) :
    (sortUsersById l).length = l.length :=
  length_sortByLe _ l

/-- `ORDER BY created_at DESC` reorders the order rows without changing
their number. -/
theorem length_sortOrdersByCreatedDesc (l : List Order) :
    (sortOrdersByCreatedDesc l).length = l.length :=
  length_sortByLe _ l

/-! ### Concrete store used by witnesses and counterexamples -/

/-- A registration datetime with its three renderings. -/
def tsReg : PyVal :=
  .vdatetime "2015-01-01T00:00:00" "2015-01-01 00:00:00" "Thu, 01 Jan 2015 00:00:00 GMT"

/-- A user row with the given id, name parts and email. -/
def mkUser (n : Nat) (f l : Option String) (em : String) : User :=
  { id := n, firstName := f, lastName := l, email := em, age := none,
    gender := none, state := none, address := none, postalCode := none,
    city := none, country := none, searchTerm := none, timestamp := tsReg }

/-- An order row with the given ids, status, creation time and item count. -/
def mkOrder (oid uid : Nat) (st : String) (created items : Nat) : Order :=
  { orderId := oid, userId := uid, status := st, gender := none,
    createdAt := created, returnedAt := none, shippedAt := none,
    deliveredAt := none, numOfItem := items }

/-- A small store: three users (user 2 has NULL name parts), four orders
for user 1 in statuses delivered, delivered, shipped, weird, and one
dangling order whose `user_id` 17 matches no user row. -/
def dbMain : DB :=
  { users :=
      [mkUser 1 (some "Ada") (some "Lovelace") "ada@example.com",
       mkUser 2 none none "noname@example.com",
       mkUser 3 (some "Bob") (some "Stone") "bob@example.com"]
    orders :=
      [mkOrder 11 1 "delivered" 5 2,
       mkOrder 12 1 "delivered" 8 1,
       mkOrder 13 1 "shipped" 3 4,
       mkOrder 14 1 "weird" 9 3,
       mkOrder 20 17 "pending" 2 1] }

/-! ### Claim theorems -/

/-- C4: path-parameter handling of `/api/customers/<int:customer_id>`.
Evaluating the routing layer and handler: a non-numeric segment such as
`abc` is rejected by routing with the 404 envelope; `0` matches the
converter, reaches the handler and draws the 400 envelope; a positive id
with no matching row draws 404. The failing input of the claim is `-1`:
werkzeug's `<int:...>` converter matches only `\d+`, so the segment `-1`
never reaches the handler's positivity check and the response is the
routing 404, not the 400 the claim (and src/test_api.py line 77)
expects. -/
theorem c4_path_id_routing :
    routeCustomerDetail dbMain "-1" =
      .err 404 "Not Found" "The requested resource was not found" ∧
    isIntSegment "-1" = false ∧
    routeCustomerDetail dbMain "abc" =
      .err 404 "Not Found" "The requested resource was not found" ∧
    routeCustomerDetail dbMain "0" =
      .err 400 "Invalid Customer ID" "Customer ID must be a positive integer" ∧
    routeCustomerDetail dbMain "99" =
      .err 404 "Customer Not Found" "Customer with ID 99 does not exist" := by
  decide

/-- C6 (amended): every timestamp field the handlers format — registered-at,
first/last-order-date on the customer detail, and the four order
timestamps on both the orders list and the order detail — is rendered by
the one three-way rule `formatTimestamp` (ISO string for a present
temporal value, plain string form for a present non-temporal truthy value,
null otherwise); the customers-list endpoint, however, hands the stored
registration timestamp to the JSON layer's default rendering
(`defaultJsonRender`), which emits the http-date form of a datetime, not
the ISO form. -/
theorem c6_timestamp_rendering :
    (∀ v : PyVal,
      renderRegisteredAt v = formatTimestamp v ∧
      renderFirstOrderDate v = formatTimestamp v ∧
      renderLastOrderDate v = formatTimestamp v ∧
      renderOrdersCreatedAt v = formatTimestamp v ∧
      renderOrdersReturnedAt v = formatTimestamp v ∧
      renderOrdersShippedAt v = formatTimestamp v ∧
      renderOrdersDeliveredAt v = formatTimestamp v ∧
      renderOrderDetailCreatedAt v = formatTimestamp v ∧
      renderOrderDetailReturnedAt v = formatTimestamp v ∧
      renderOrderDetailShippedAt v = formatTimestamp v ∧
      renderOrderDetailDeliveredAt v = formatTimestamp v) ∧
    formatTimestamp .vnone = none ∧
    (∀ iso strF httpF, formatTimestamp (.vdatetime iso strF httpF) = some iso) ∧
    (∀ s, formatTimestamp (.vother s) = if s = "" then none else some s) ∧
    (∀ iso strF httpF, defaultJsonRender (.vdatetime iso strF httpF) = some httpF) := by
  refine ⟨fun v => ⟨rfl, rfl, rfl, rfl, rfl, rfl, rfl, rfl, rfl, rfl, rfl⟩,
    rfl, fun _ _ _ => rfl, ?_, fun _ _ _ => rfl⟩
  intro s
  by_cases h : s = "" <;> simp [formatTimestamp, PyVal.truthy, PyVal.hasIsoformat, PyVal.pyStr, h]

/-- C6 counterexample: the claim as stated is false for the customers-list
endpoint. For the stored registration datetime `tsReg`, the list response
serialises the raw `timestamp` column through the JSON layer's default
datetime rendering (the http date), while the three-way rule of the claim
would render its ISO form; the two differ. -/
theorem c6_list_endpoint_counterexample :
    listCustomersRenderedTimestamps (listCustomers dbMain ⟨none, none, none⟩) =
      [some "Thu, 01 Jan 2015 00:00:00 GMT", some "Thu, 01 Jan 2015 00:00:00 GMT",
       some "Thu, 01 Jan 2015 00:00:00 GMT"] ∧
    formatTimestamp tsReg = some "2015-01-01T00:00:00" ∧
    (some "Thu, 01 Jan 2015 00:00:00 GMT" : Option String) ≠ some "2015-01-01T00:00:00" := by
  decide

/-- C9: the health endpoint returns transport 200 with `database:
"connected"` exactly on a live probe; the 500 unhealthy payload appears
exactly when the probe raises; the unreachable-but-non-raising probe
yields transport 200 with the body's database field reporting
"disconnected". -/
theorem c9_health_check :
    (∀ p : ProbeOutcome,
      (((healthCheck p).httpStatus = 200 ∧ (healthCheck p).database = some "connected")
        ↔ p = .conn) ∧
      ((healthCheck p).httpStatus = 500 ↔ ∃ m, p = .raises m)) ∧
    healthCheck .conn = ⟨200, "healthy", some "connected", none⟩ ∧
    healthCheck .noConn = ⟨200, "healthy", some "disconnected", none⟩ ∧
    (∀ m, healthCheck (.raises m) = ⟨500, "unhealthy", none, some m⟩) := by
  refine ⟨?_, rfl, rfl, fun m => rfl⟩
  intro p
  cases p <;> simp [healthCheck]

/-- C10: the text of every statement a handler executes is independent of
the user-supplied search term, status filter and ids: two non-empty search
terms (or status filters) produce identical statement texts, the values
travelling only in the bound-parameter lists; the single-order statement
text is one constant for all ids. -/
theorem c10_bound_parameters :
    (∀ s₁ s₂ : String, s₁ ≠ "" → s₂ ≠ "" →
      listCustomersCountQuery s₁ = listCustomersCountQuery s₂ ∧
      listCustomersPageQuery s₁ = listCustomersPageQuery s₂) ∧
    (∀ f₁ f₂ : String, f₁ ≠ "" → f₂ ≠ "" →
      customerOrdersCountQuery f₁ = customerOrdersCountQuery f₂ ∧
      customerOrdersPageQuery f₁ = customerOrdersPageQuery f₂) ∧
    (∀ s : String, s ≠ "" → listCustomersParams s =
      [.str ("%" ++ s ++ "%"), .str ("%" ++ s ++ "%"), .str ("%" ++ s ++ "%")]) ∧
    (∀ (cid : Int) (f : String), f ≠ "" →
      customerOrdersParams cid f = [.int cid, .str f]) ∧
    (∀ cid : Int, orderDetailParams cid = [.int cid]) := by
  refine ⟨?_, ?_, ?_, ?_, fun _ => rfl⟩
  · intro s₁ s₂ h₁ h₂
    constructor <;>
      simp [listCustomersCountQuery, listCustomersPageQuery, listCustomersBaseQuery, h₁, h₂]
  · intro f₁ f₂ h₁ h₂
    constructor <;>
      simp [customerOrdersCountQuery, customerOrdersPageQuery, h₁, h₂]
  · intro s h
    simp [listCustomersParams, h]
  · intro cid f h
    simp [customerOrdersParams, h]

/-- Witness for C10 at the concrete filters `ada` and `bob` and id 7. -/
theorem c10_bound_parameters_witness :
    (listCustomersCountQuery "ada" = listCustomersCountQuery "bob" ∧
      listCustomersPageQuery "ada" = listCustomersPageQuery "bob") ∧
    (customerOrdersCountQuery "shipped" = customerOrdersCountQuery "weird" ∧
      customerOrdersPageQuery "shipped" = customerOrdersPageQuery "weird") ∧
    listCustomersParams "ada" = [.str "%ada%", .str "%ada%", .str "%ada%"] ∧
    customerOrdersParams 7 "shipped" = [.int 7, .str "shipped"] ∧
    orderDetailParams 7 = [.int 7] :=
  ⟨c10_bound_parameters.1 "ada" "bob" (by decide) (by decide),
   c10_bound_parameters.2.1 "shipped" "weird" (by decide) (by decide),
   c10_bound_parameters.2.2.1 "ada" (by decide),
   c10_bound_parameters.2.2.2.1 7 "shipped" (by decide),
   c10_bound_parameters.2.2.2.2 7⟩

/-- C3 (amended): list-endpoint parameter validation. A resolved page below
1 draws the 400 page envelope; a resolved limit outside [1, 100] draws the
400 limit envelope; an absent page defaults to 1 and an absent limit to
the configured page size 10; and a present-but-malformed page value is
treated exactly like an absent one — werkzeug returns the default from
`args.get(..., type=int)` when the conversion raises — so the request is
not rejected. -/
theorem c3_parameter_validation :
    (∀ (db : DB) (p l : Int) (s : String), p < 1 →
      listCustomersCore db p l s =
        .err 400 "Invalid page number" "Page number must be 1 or greater") ∧
    (∀ (db : DB) (p l : Int) (s : String), 1 ≤ p → (l < 1 ∨ MAX_PAGE_SIZE < l) →
      listCustomersCore db p l s =
        .err 400 "Invalid limit" "Limit must be between 1 and 100") ∧
    (∀ (db : DB) (s : Option String),
      listCustomers db ⟨none, none, s⟩ =
        listCustomersCore db 1 DEFAULT_PAGE_SIZE (getStrArg s)) ∧
    (∀ raw : String, pyParseInt raw = none →
      ∀ (db : DB) (lim srch : Option String),
        listCustomers db ⟨some raw, lim, srch⟩ = listCustomers db ⟨none, lim, srch⟩) := by
  refine ⟨?_, ?_, fun db s => rfl, ?_⟩
  · intro db p l s h
    simp [listCustomersCore, h]
  · intro db p l s hp hl
    have hnp : ¬ p < 1 := by omega
    rcases hl with hl | hl
    · have : (decide (l < 1) || decide (l > MAX_PAGE_SIZE)) = true := by
        simp [hl]
      simp [listCustomersCore, hnp, this]
    · have : (decide (l < 1) || decide (l > MAX_PAGE_SIZE)) = true := by
        simp [hl]
      simp [listCustomersCore, hnp, this]
  · intro raw hraw db lim srch
    simp [listCustomers, getIntArg, hraw]

/-- Witness for C3 at concrete inputs: page 0 and limit 101 are rejected
with the respective envelopes, absent parameters resolve to the defaults,
and the malformed page string `abc` is handled like an absent page. -/
theorem c3_parameter_validation_witness :
    listCustomersCore dbMain 0 10 "" =
      .err 400 "Invalid page number" "Page number must be 1 or greater" ∧
    listCustomersCore dbMain 1 101 "" =
      .err 400 "Invalid limit" "Limit must be between 1 and 100" ∧
    listCustomers dbMain ⟨none, none, none⟩ =
      listCustomersCore dbMain 1 DEFAULT_PAGE_SIZE (getStrArg none) ∧
    listCustomers dbMain ⟨some "abc", none, none⟩ =
      listCustomers dbMain ⟨none, none, none⟩ :=
  ⟨c3_parameter_validation.1 dbMain 0 10 "" (by decide),
   c3_parameter_validation.2.1 dbMain 1 101 "" (by decide) (Or.inr (by decide)),
   c3_parameter_validation.2.2.1 dbMain none,
   c3_parameter_validation.2.2.2 "abc" (by decide) dbMain none none⟩

/-- C3 counterexample: the claim as stated is false — a present-but-
malformed page value is not rejected with an InvalidParameter response.
With `page=abc` the handler falls back to page 1 and answers with the
normal 200 payload, not with any 400 envelope. -/
theorem c3_malformed_page_counterexample :
    listCustomers dbMain ⟨some "abc", none, none⟩ =
      .ok dbMain.users ⟨1, 10, 3, 1, false, false⟩ none ∧
    listCustomers dbMain ⟨some "abc", none, none⟩ ≠
      .err 400 "Invalid page number" "Page number must be 1 or greater" := by
  decide

/-- C7 (amended): `full_name` shaping. The customer-detail endpoint always
space-joins the `str()` forms of the two name parts — a customer with both
parts NULL gets the string `"None None"`, not null. The order-detail
endpoint renders `full_name` as the space-join when both parts are truthy
and null otherwise (so null when either part is missing, not only when
both are). -/
theorem c7_full_name :
    (∀ (db : DB) (cid : Int) (u : User), 0 < cid →
      db.users.find? (fun v => (v.id : Int) == cid) = some u →
      detailFullName (getCustomerDetails db cid) =
        some (pyStrOfOpt u.firstName ++ " " ++ pyStrOfOpt u.lastName)) ∧
    (∀ (db : DB) (oid : Int) (op : OrderPayload) (cp : JoinedCustomerPayload),
      getOrderDetails db oid = .ok op cp →
      cp.fullName =
        if truthyStr cp.firstName && truthyStr cp.lastName then
          some (pyStrOfOpt cp.firstName ++ " " ++ pyStrOfOpt cp.lastName)
        else none) := by
  constructor
  · intro db cid u hpos hfind
    have hne : ¬ cid ≤ 0 := by omega
    simp [getCustomerDetails, hne, hfind, detailFullName, fstringJoin]
  · intro db oid op cp h
    by_cases hle : oid ≤ 0
    · simp [getOrderDetails, hle] at h
    · simp only [getOrderDetails, if_neg hle] at h
      cases hfind : db.orders.find? (fun o => (o.orderId : Int) == oid) with
      | none => rw [hfind] at h; simp at h
      | some o =>
        rw [hfind] at h
        cases h
        rfl

/-- Witness for C7: the detail response for customer 1 joins the present
name parts, and the order-detail customer block of the dangling order 20
carries a `full_name` consistent with its own (NULL) name parts. -/
theorem c7_full_name_witness :
    detailFullName (getCustomerDetails dbMain 1) =
      some (pyStrOfOpt (some "Ada") ++ " " ++ pyStrOfOpt (some "Lovelace")) ∧
    (JoinedCustomerPayload.mk (some 17) none none none none none none none none).fullName =
      (if truthyStr none && truthyStr none then
        some (pyStrOfOpt none ++ " " ++ pyStrOfOpt none)
      else none) :=
  ⟨c7_full_name.1 dbMain 1 (mkUser 1 (some "Ada") (some "Lovelace") "ada@example.com")
    (by decide) (by decide),
   c7_full_name.2 dbMain 20 ⟨20, 17, "pending", none, 1, 2, none, none, none⟩
    (JoinedCustomerPayload.mk (some 17) none none none none none none none none) (by decide)⟩

/-- C7 counterexample: the claim as stated is false — customer 2 has both
name parts NULL, yet the customer-detail response renders `full_name` as
the string `"None None"`, not null. -/
theorem c7_both_missing_counterexample :
    detailFullName (getCustomerDetails dbMain 2) = some "None None" ∧
    (some "None None" : Option String) ≠ none := by
  decide

/-- C8 (amended): an order whose `user_id` matches no user row is returned
with transport 200; every customer field drawn from the LEFT-JOINed user
row — first/last name, full name, email, age, city, state, country — is
null, while the customer block's `id` echoes the order's own (dangling)
`user_id`, so it is not null. -/
theorem c8_dangling_reference :
    ∀ (db : DB) (oid : Int) (o : Order), 0 < oid →
      db.orders.find? (fun x => (x.orderId : Int) == oid) = some o →
      db.users.find? (fun u => u.id == o.userId) = none →
      getOrderDetails db oid =
        .ok ⟨o.orderId, o.userId, o.status, o.gender, o.numOfItem, o.createdAt,
             o.returnedAt, o.shippedAt, o.deliveredAt⟩
           ⟨some (o.userId : Int), none, none, none, none, none, none, none, none⟩ := by
  intro db oid o hpos hfind hjoin
  have hne : ¬ oid ≤ 0 := by omega
  simp [getOrderDetails, hne, hfind, hjoin, truthyStr]

/-- Witness for C8: order 20 of the concrete store references user 17,
which does not exist; the response is the 200 payload with the joined
customer columns null and `id = 17`. -/
theorem c8_dangling_reference_witness :
    getOrderDetails dbMain 20 =
      .ok ⟨20, 17, "pending", none, 1, 2, none, none, none⟩
         ⟨some 17, none, none, none, none, none, none, none, none⟩ :=
  c8_dangling_reference dbMain 20 (mkOrder 20 17 "pending" 2 1)
    (by decide) (by decide) (by decide)

/-- C8 counterexample: the claim's "all customer fields null" is false at
order 20 — the customer block's `id` field is `17`, the dangling
`user_id`, not null (the remaining customer fields are null and the
status is 200). -/
theorem c8_customer_id_counterexample :
    (match getOrderDetails dbMain 20 with
      | .ok _ cp => cp.id
      | .err _ _ _ => none) = some 17 ∧
    (some (17 : Int) : Option Int) ≠ none := by
  decide

/-- The total-items aggregate (`SUM(num_of_item)` then Python `or 0`)
equals the plain sum of the item counts, for empty and non-empty order
sets alike. -/
theorem pyOrZero_sum (os : List Order) :
    pyOrZero (if os.isEmpty then none else some ((os.map Order.numOfItem).sum)) =
      (os.map Order.numOfItem).sum := by
  cases os <;> simp [pyOrZero]

/-- C5: the order summary of an existing customer counts all of the
customer's orders in `total_orders`; each of the four buckets counts
exactly the orders whose status equals that bucket's name (an order in any
other status is counted in the total and in no bucket);
`total_items_purchased` is the sum of the item counts, 0 — never null —
for a customer without orders; and the first/last order dates are the
minimum/maximum created-at, null when there are no orders. -/
theorem c5_order_summary :
    ∀ (db : DB) (cid : Int) (cp : CustomerPayload) (sm : OrderSummary),
      getCustomerDetails db cid = .ok cp sm →
      let mine := db.orders.filter (fun o => (o.userId : Int) == cid)
      sm.totalOrders = mine.length ∧
      sm.delivered = (mine.filter (fun o => o.status == "delivered")).length ∧
      sm.returned = (mine.filter (fun o => o.status == "returned")).length ∧
      sm.shipped = (mine.filter (fun o => o.status == "shipped")).length ∧
      sm.pending = (mine.filter (fun o => o.status == "pending")).length ∧
      sm.totalItemsPurchased = (mine.map Order.numOfItem).sum ∧
      (mine = [] → sm.totalItemsPurchased = 0 ∧
        sm.firstOrderDate = none ∧ sm.lastOrderDate = none) ∧
      sm.firstOrderDate = sqlMinNat (mine.map Order.createdAt) ∧
      sm.lastOrderDate = sqlMaxNat (mine.map Order.createdAt) ∧
      (∀ m, sm.firstOrderDate = some m →
        m ∈ mine.map Order.createdAt ∧ ∀ x ∈ mine.map Order.createdAt, m ≤ x) ∧
      (∀ m, sm.lastOrderDate = some m →
        m ∈ mine.map Order.createdAt ∧ ∀ x ∈ mine.map Order.createdAt, x ≤ m) := by
  intro db cid cp sm h
  by_cases hle : cid ≤ 0
  · simp [getCustomerDetails, hle] at h
  · simp only [getCustomerDetails, if_neg hle] at h
    cases hfind : db.users.find? (fun v => (v.id : Int) == cid) with
    | none => rw [hfind] at h; simp at h
    | some u =>
      rw [hfind] at h
      cases h
      refine ⟨rfl, rfl, rfl, rfl, rfl, pyOrZero_sum _, ?_, rfl, rfl,
        fun m hm => sqlMinNat_isMin _ m hm, fun m hm => sqlMaxNat_isMax _ m hm⟩
      intro hmine
      refine ⟨?_, ?_, ?_⟩
      · show pyOrZero (if (db.orders.filter (fun o => (o.userId : Int) == cid)).isEmpty
          then none
          else some (((db.orders.filter (fun o => (o.userId : Int) == cid)).map Order.numOfItem).sum)) = 0
        rw [hmine]
        rfl
      · show sqlMinNat ((db.orders.filter (fun o => (o.userId : Int) == cid)).map Order.createdAt) = none
        rw [hmine]
        rfl
      · show sqlMaxNat ((db.orders.filter (fun o => (o.userId : Int) == cid)).map Order.createdAt) = none
        rw [hmine]
        rfl

/-- Witness for C5 at customer 1 of the concrete store, whose orders are in
statuses delivered, delivered, shipped, weird: the summary is
`total_orders = 4, delivered = 2, returned = 0, shipped = 1, pending = 0`
(the weird order only in the total), `total_items_purchased = 10`, first
order date 3 and last order date 9. -/
theorem c5_order_summary_witness :
    let mine := dbMain.orders.filter (fun o => (o.userId : Int) == (1 : Int))
    (OrderSummary.mk 4 2 0 1 0 10 (some 3) (some 9)).totalOrders = mine.length ∧
    (OrderSummary.mk 4 2 0 1 0 10 (some 3) (some 9)).delivered =
      (mine.filter (fun o => o.status == "delivered")).length ∧
    (OrderSummary.mk 4 2 0 1 0 10 (some 3) (some 9)).returned =
      (mine.filter (fun o => o.status == "returned")).length ∧
    (OrderSummary.mk 4 2 0 1 0 10 (some 3) (some 9)).shipped =
      (mine.filter (fun o => o.status == "shipped")).length ∧
    (OrderSummary.mk 4 2 0 1 0 10 (some 3) (some 9)).pending =
      (mine.filter (fun o => o.status == "pending")).length ∧
    (OrderSummary.mk 4 2 0 1 0 10 (some 3) (some 9)).totalItemsPurchased =
      (mine.map Order.numOfItem).sum ∧
    (mine = [] → (OrderSummary.mk 4 2 0 1 0 10 (some 3) (some 9)).totalItemsPurchased = 0 ∧
      (OrderSummary.mk 4 2 0 1 0 10 (some 3) (some 9)).firstOrderDate = none ∧
      (OrderSummary.mk 4 2 0 1 0 10 (some 3) (some 9)).lastOrderDate = none) ∧
    (OrderSummary.mk 4 2 0 1 0 10 (some 3) (some 9)).firstOrderDate =
      sqlMinNat (mine.map Order.createdAt) ∧
    (OrderSummary.mk 4 2 0 1 0 10 (some 3) (some 9)).lastOrderDate =
      sqlMaxNat (mine.map Order.createdAt) ∧
    (∀ m, (OrderSummary.mk 4 2 0 1 0 10 (some 3) (some 9)).firstOrderDate = some m →
      m ∈ mine.map Order.createdAt ∧ ∀ x ∈ mine.map Order.createdAt, m ≤ x) ∧
    (∀ m, (OrderSummary.mk 4 2 0 1 0 10 (some 3) (some 9)).lastOrderDate = some m →
      m ∈ mine.map Order.createdAt ∧ ∀ x ∈ mine.map Order.createdAt, x ≤ m) :=
  c5_order_summary dbMain 1
    ⟨1, some "Ada", some "Lovelace", some "Ada Lovelace", "ada@example.com",
     none, none, none, none, none, none, none, none, some "2015-01-01T00:00:00"⟩
    ⟨4, 2, 0, 1, 0, 10, some 3, some 9⟩ (by decide)

/-- C2: each list operation builds its count statement and its page
statement around one shared predicate — a single WHERE clause `w` such
that the count text is its head plus `w` and the page text is its head
plus the same `w` plus only the ORDER BY / LIMIT / OFFSET tail — and,
semantically, a successful list response's `total_count` is the number of
rows matching that predicate while every row of the returned page matches
it too. -/
theorem c2_count_page_same_predicate :
    (∀ s : String, ∃ w : String,
      listCustomersCountQuery s = listCustomersCountSelect ++ w ∧
      listCustomersPageQuery s =
        listCustomersSelect ++ w ++ " ORDER BY id LIMIT %s OFFSET %s") ∧
    (∀ f : String, ∃ w : String,
      customerOrdersCountQuery f = customerOrdersCountSelect ++ w ∧
      customerOrdersPageQuery f =
        customerOrdersSelect ++ w ++ " ORDER BY created_at DESC LIMIT %s OFFSET %s") ∧
    (∀ (db : DB) (page limit : Int) (s : String) rows pg echo,
      listCustomersCore db page limit s = .ok rows pg echo →
      pg.totalCount = (customersMatching s db.users).length ∧
      ∀ u ∈ rows, u ∈ customersMatching s db.users) ∧
    (∀ (db : DB) (cid page limit : Int) (f : String) stub rows pg echo,
      getCustomerOrdersCore db cid page limit f = .ok stub rows pg echo →
      pg.totalCount = (ordersMatching cid f db.orders).length ∧
      ∀ o ∈ rows, o ∈ ordersMatching cid f db.orders) := by
  refine ⟨?_, ?_, ?_, ?_⟩
  · intro s
    refine ⟨if s ≠ "" then searchCondition else "", rfl, ?_⟩
    rw [String.append_assoc]
    rfl
  · intro f
    refine ⟨if f ≠ "" then statusCondition else "", rfl, ?_⟩
    rw [String.append_assoc]
    rfl
  · intro db page limit s rows pg echo h
    simp only [listCustomersCore] at h
    split at h
    · simp at h
    · split at h
      · simp at h
      · cases h
        refine ⟨rfl, ?_⟩
        intro u hu
        have h1 := List.take_subset _ _ hu
        have h2 := List.drop_subset _ _ h1
        exact (mem_sortByLe _ u _).mp h2
  · intro db cid page limit f stub rows pg echo h
    simp only [getCustomerOrdersCore] at h
    split at h
    · simp at h
    · split at h
      · simp at h
      · split at h
        · simp at h
        · cases hfind : db.users.find? (fun u => (u.id : Int) == cid) with
          | none => rw [hfind] at h; simp at h
          | some u =>
            rw [hfind] at h
            cases h
            refine ⟨rfl, ?_⟩
            intro o ho
            have h1 := List.take_subset _ _ ho
            have h2 := List.drop_subset _ _ h1
            exact (mem_sortByLe _ o _).mp h2

/-- Witness for C2: the shared WHERE clause at the concrete search `ada`
and status filter `shipped`, and the semantic halves at the concrete
store (customers page 1 limit 10; orders of customer 1 with filter
`shipped`). -/
theorem c2_count_page_same_predicate_witness :
    (∃ w : String,
      listCustomersCountQuery "ada" = listCustomersCountSelect ++ w ∧
      listCustomersPageQuery "ada" =
        listCustomersSelect ++ w ++ " ORDER BY id LIMIT %s OFFSET %s") ∧
    (∃ w : String,
      customerOrdersCountQuery "shipped" = customerOrdersCountSelect ++ w ∧
      customerOrdersPageQuery "shipped" =
        customerOrdersSelect ++ w ++ " ORDER BY created_at DESC LIMIT %s OFFSET %s") ∧
    ((Pagination.mk 1 10 3 1 false false).totalCount =
        (customersMatching "" dbMain.users).length ∧
      ∀ u ∈ dbMain.users, u ∈ customersMatching "" dbMain.users) ∧
    ((Pagination.mk 1 10 1 1 false false).totalCount =
        (ordersMatching 1 "shipped" dbMain.orders).length ∧
      ∀ o ∈ [mkOrder 13 1 "shipped" 3 4], o ∈ ordersMatching 1 "shipped" dbMain.orders) :=
  ⟨c2_count_page_same_predicate.1 "ada",
   c2_count_page_same_predicate.2.1 "shipped",
   c2_count_page_same_predicate.2.2.1 dbMain 1 10 "" dbMain.users
     ⟨1, 10, 3, 1, false, false⟩ none (by decide),
   c2_count_page_same_predicate.2.2.2 dbMain 1 1 10 "shipped"
     ⟨1, "Ada Lovelace"⟩ [mkOrder 13 1 "shipped" 3 4]
     ⟨1, 10, 1, 1, false, false⟩ (some "shipped") (by decide)⟩

/-- C1: pagination arithmetic of the two list endpoints. Every successful
list response holds exactly `min(limit, total_count - (page-1)*limit)`
rows (0 as soon as the offset reaches `total_count`), its `total_pages` is
the ceiling of `total_count / limit`, `has_next` is `page < total_pages`
and `has_prev` is `page > 1`, with `total_count` the number of rows
matching the filter predicate; and every validly parameterised request
(page ≥ 1, 1 ≤ limit ≤ 100, and for the orders endpoint an existing
customer) does produce such a successful response, at exactly the
requested page and limit. -/
theorem c1_pagination_math :
    (∀ (db : DB) (page limit : Int) (s : String) rows pg echo,
      listCustomersCore db page limit s = .ok rows pg echo →
      pg.totalCount = (customersMatching s db.users).length ∧
      rows.length = Nat.min pg.limit (pg.totalCount - (pg.page - 1) * pg.limit) ∧
      (pg.totalCount ≤ (pg.page - 1) * pg.limit → rows.length = 0) ∧
      pg.totalPages = pg.totalCount ⌈/⌉ pg.limit ∧
      pg.hasNext = decide (pg.page < pg.totalPages) ∧
      pg.hasPrev = decide (pg.page > 1)) ∧
    (∀ (db : DB) (page limit : Int) (s : String), 1 ≤ page → 1 ≤ limit →
      limit ≤ MAX_PAGE_SIZE →
      ∃ rows pg echo, listCustomersCore db page limit s = .ok rows pg echo ∧
        pg.page = page.toNat ∧ pg.limit = limit.toNat) ∧
    (∀ (db : DB) (cid page limit : Int) (f : String) stub rows pg echo,
      getCustomerOrdersCore db cid page limit f = .ok stub rows pg echo →
      pg.totalCount = (ordersMatching cid f db.orders).length ∧
      rows.length = Nat.min pg.limit (pg.totalCount - (pg.page - 1) * pg.limit) ∧
      (pg.totalCount ≤ (pg.page - 1) * pg.limit → rows.length = 0) ∧
      pg.totalPages = pg.totalCount ⌈/⌉ pg.limit ∧
      pg.hasNext = decide (pg.page < pg.totalPages) ∧
      pg.hasPrev = decide (pg.page > 1)) ∧
    (∀ (db : DB) (cid page limit : Int) (f : String) (u : User), 0 < cid →
      1 ≤ page → 1 ≤ limit → limit ≤ MAX_PAGE_SIZE →
      db.users.find? (fun v => (v.id : Int) == cid) = some u →
      ∃ stub rows pg echo,
        getCustomerOrdersCore db cid page limit f = .ok stub rows pg echo ∧
        pg.page = page.toNat ∧ pg.limit = limit.toNat) := by
  refine ⟨?_, ?_, ?_, ?_⟩
  · intro db page limit s rows pg echo h
    simp only [listCustomersCore] at h
    split at h
    · simp at h
    · split at h
      · simp at h
      · cases h
        refine ⟨rfl, ?_, ?_, (Nat.ceilDiv_eq_add_pred_div _ _).symm, rfl, rfl⟩
        · dsimp only
          rw [length_page, length_sortUsersById]
        · intro hle
          dsimp only at hle ⊢
          rw [length_page, length_sortUsersById, Nat.sub_eq_zero_of_le hle]
          exact Nat.min_eq_right (Nat.zero_le _)
  · intro db page limit s h1 h2 h3
    have hnp : ¬ page < 1 := by omega
    have hb : ¬ ((decide (limit < 1) || decide (limit > MAX_PAGE_SIZE)) = true) := by
      simp only [Bool.or_eq_true, decide_eq_true_eq]
      omega
    simp only [listCustomersCore, if_neg hnp, if_neg hb]
    exact ⟨_, _, _, rfl, rfl, rfl⟩
  · intro db cid page limit f stub rows pg echo h
    simp only [getCustomerOrdersCore] at h
    split at h
    · simp at h
    · split at h
      · simp at h
      · split at h
        · simp at h
        · cases hfind : db.users.find? (fun v => (v.id : Int) == cid) with
          | none => rw [hfind] at h; simp at h
          | some u =>
            rw [hfind] at h
            cases h
            refine ⟨rfl, ?_, ?_, (Nat.ceilDiv_eq_add_pred_div _ _).symm, rfl, rfl⟩
            · dsimp only
              rw [length_page, length_sortOrdersByCreatedDesc]
            · intro hle
              dsimp only at hle ⊢
              rw [length_page, length_sortOrdersByCreatedDesc, Nat.sub_eq_zero_of_le hle]
              exact Nat.min_eq_right (Nat.zero_le _)
  · intro db cid page limit f u hcid h1 h2 h3 hfind
    have hnc : ¬ cid ≤ 0 := by omega
    have hnp : ¬ page < 1 := by omega
    have hb : ¬ ((decide (limit < 1) || decide (limit > MAX_PAGE_SIZE)) = true) := by
      simp only [Bool.or_eq_true, decide_eq_true_eq]
      omega
    simp only [getCustomerOrdersCore, if_neg hnc, if_neg hnp, if_neg hb, hfind]
    exact ⟨_, _, _, _, rfl, rfl, rfl⟩

/-- Witness for C1 at the concrete store: customers page 2 of limit 2 over
3 rows gives 1 row, 2 total pages, no next page and a previous one; orders
of customer 1, page 1 of limit 2 over 4 rows, gives 2 rows, 2 total
pages, a next page and no previous one; both requests succeed with the
requested page and limit echoed in the pagination block. -/
theorem c1_pagination_math_witness :
    (3 = (customersMatching "" dbMain.users).length ∧
      ([mkUser 3 (some "Bob") (some "Stone") "bob@example.com"] : List User).length =
        Nat.min 2 (3 - (2 - 1) * 2) ∧
      (3 ≤ (2 - 1) * 2 →
        ([mkUser 3 (some "Bob") (some "Stone") "bob@example.com"] : List User).length = 0) ∧
      2 = 3 ⌈/⌉ 2 ∧
      false = decide (2 < 2) ∧
      true = decide (2 > 1)) ∧
    (∃ rows pg echo, listCustomersCore dbMain 2 2 "" = .ok rows pg echo ∧
      pg.page = (2 : Int).toNat ∧ pg.limit = (2 : Int).toNat) ∧
    (4 = (ordersMatching 1 "" dbMain.orders).length ∧
      ([mkOrder 14 1 "weird" 9 3, mkOrder 12 1 "delivered" 8 1] : List Order).length =
        Nat.min 2 (4 - (1 - 1) * 2) ∧
      (4 ≤ (1 - 1) * 2 →
        ([mkOrder 14 1 "weird" 9 3, mkOrder 12 1 "delivered" 8 1] : List Order).length = 0) ∧
      2 = 4 ⌈/⌉ 2 ∧
      true = decide (1 < 2) ∧
      false = decide (1 > 1)) ∧
    (∃ stub rows pg echo, getCustomerOrdersCore dbMain 1 1 2 "" = .ok stub rows pg echo ∧
      pg.page = (1 : Int).toNat ∧ pg.limit = (2 : Int).toNat) :=
  ⟨c1_pagination_math.1 dbMain 2 2 ""
     [mkUser 3 (some "Bob") (some "Stone") "bob@example.com"]
     ⟨2, 2, 3, 2, false, true⟩ none (by decide),
   c1_pagination_math.2.1 dbMain 2 2 "" (by decide) (by decide) (by decide),
   c1_pagination_math.2.2.1 dbMain 1 1 2 "" ⟨1, "Ada Lovelace"⟩
     [mkOrder 14 1 "weird" 9 3, mkOrder 12 1 "delivered" 8 1]
     ⟨1, 2, 4, 2, true, false⟩ none (by decide),
   c1_pagination_math.2.2.2 dbMain 1 1 2 ""
     (mkUser 1 (some "Ada") (some "Lovelace") "ada@example.com")
     (by decide) (by decide) (by decide) (by decide) (by decide)⟩

end ThinkAPI
